import Mathlib

/- Verification of the connection/transaction core of www/transwrap/db.py.

   The embedding models the module's mutable state explicitly:
   the global engine is an `Engine` value threaded through runs, the
   thread-local `_db_ctx` is a `DbCtx`, and every call that reaches the
   underlying raw connection (commit / rollback / close, plus statement
   execution) is recorded as a `ConnEv` in an event trace.  Python
   exceptions are values of `PyExc`; a computation returns
   `Option PyExc` (`none` = normal return, `some e` = exception `e`
   propagating).  Driver calls that may fail (raw commit / rollback) are
   parametrized by boolean outcome flags. -/

/-- Exceptions the Python module can raise or let propagate.  `user n` is an
exception raised by the work enclosed in a scope (its payload keeps its
identity); `commitFail` / `rollbackFail` are failures of the raw
connection's commit() / rollback(); `typeError`, `attributeError`,
`valueError` and `nameError` model the built-in Python errors the code can
hit (len(None) / None arithmetic, attribute access on None, unpacking an
empty zip, and the undefined name `clos` in insert); `multiColumns` is the
module's MultiColumnsError. -/
inductive PyExc where
  | user : Nat → PyExc
  | commitFail : PyExc
  | rollbackFail : PyExc
  | typeError : PyExc
  | attributeError : PyExc
  | nameError : PyExc
  | valueError : PyExc
  | multiColumns : PyExc
  deriving DecidableEq, Repr

/-- Calls reaching the underlying raw connection: statement execution,
commit(), rollback(), close(). -/
inductive ConnEv where
  | exec : ConnEv
  | commit : ConnEv
  | rollback : ConnEv
  | close : ConnEv
  deriving DecidableEq, Repr

/-- The global engine (`_Engine`): a factory for raw connections.  `next` is
the id the next raw connection handle will get, `calls` counts how many
times the factory has been invoked. -/
structure Engine where
  next : Nat
  calls : Nat
  deriving DecidableEq, Repr

/-- `_Engine.connect`: invoke the factory, producing a fresh raw handle. -/
def Engine.connect (e : Engine) : Engine × Nat :=
  ({ next := e.next + 1, calls := e.calls + 1 }, e.next)

/-- `_LasyConnection`: holds `self._connection`, the raw handle, which is
`none` until the first cursor() call (db.py lines 41-66). -/
structure LasyConnection where
  raw : Option Nat
  deriving DecidableEq, Repr

/-- `_LasyConnection.cursor` (db.py 45-50): on first call invoke
`engine.connect()` and record the handle; afterwards reuse the stored
handle.  Returns the updated engine and lazy connection together with the
handle the cursor is created on. -/
def LasyConnection.cursor (e : Engine) (lc : LasyConnection) :
    (Engine × LasyConnection) × Nat :=
  match lc.raw with
  | none =>
    let p := e.connect
    ((p.1, ⟨some p.2⟩), p.2)
  | some h => ((e, lc), h)

/-- `_LasyConnection.commit` (db.py 52-53): delegate to the raw handle.  On
an unopened connection this is `None.commit()`, an AttributeError.  The
outcome flag `cOk` tells whether the raw commit succeeds. -/
def LasyConnection.commit (cOk : Bool) (lc : LasyConnection) :
    List ConnEv × Option PyExc :=
  match lc.raw with
  | none => ([], some PyExc.attributeError)
  | some _ => ([ConnEv.commit], if cOk then none else some PyExc.commitFail)

/-- `_LasyConnection.rollback` (db.py 55-56): delegate to the raw handle,
AttributeError if unopened; `rOk` tells whether the raw rollback
succeeds. -/
def LasyConnection.rollback (rOk : Bool) (lc : LasyConnection) :
    List ConnEv × Option PyExc :=
  match lc.raw with
  | none => ([], some PyExc.attributeError)
  | some _ => ([ConnEv.rollback], if rOk then none else some PyExc.rollbackFail)

/-- `_LasyConnection.cleanup` (db.py 58-66): close the raw handle if one was
opened, idempotent otherwise. -/
def LasyConnection.cleanup (lc : LasyConnection) : LasyConnection × List ConnEv :=
  match lc.raw with
  | some _ => (⟨none⟩, [ConnEv.close])
  | none => (lc, [])

/-- The thread-local `_DbCtx` (db.py 100-118): `conn` is `self._connection`
(None or a `_LasyConnection`), `transactions` is `self._transactions`
(an integer, or None after `cleanup` assigns None to it). -/
structure DbCtx where
  conn : Option LasyConnection
  transactions : Option Int
  deriving DecidableEq, Repr

/-- `_DbCtx.__init__` (db.py 101-103): no connection, transaction count 0. -/
def DbCtx.new : DbCtx := ⟨none, some 0⟩

/-- `_DbCtx.is_init` (db.py 105-106): true iff `self._connection` is not
None. -/
def DbCtx.is_init (c : DbCtx) : Bool := c.conn.isSome

/-- `_DbCtx.init` (db.py 108-111): unconditionally install a fresh unopened
`_LasyConnection` and set the transaction count to 0.  The source has no
initialization check and cannot raise. -/
def DbCtx.init (_c : DbCtx) : DbCtx := ⟨some ⟨none⟩, some 0⟩

/-- `_DbCtx.cleanup` (db.py 113-115): `self._connection.cleanup()` (an
AttributeError on None if uninitialized) followed by
`self._transactions = None`.  Note the source does NOT clear
`self._connection`; the context keeps the (now raw-less) lazy connection
object. -/
def DbCtx.cleanup (c : DbCtx) : Except PyExc (DbCtx × List ConnEv) :=
  match c.conn with
  | none => .error PyExc.attributeError
  | some lc =>
    let p := lc.cleanup
    .ok (⟨some p.1, none⟩, p.2)

/-- The context state `_DbCtx.cleanup` actually produces from an initialized
context: the lazy connection object is still attached (raw handle closed),
and `_transactions` is None. -/
def cleanedDb : DbCtx := ⟨some ⟨none⟩, none⟩

/-- `_ConnectionCtx.__enter__` (db.py 129-135): record whether this scope
performed `init()`. -/
def connEnter (c : DbCtx) : DbCtx × Bool :=
  if c.is_init then (c, false) else (c.init, true)

/-- `_ConnectionCtx.__exit__` (db.py 137-143): if this scope initialized the
context, run `_db_ctx.cleanup()`; otherwise do nothing.  `exc` is the
exception (if any) raised by the enclosed work; `__exit__` returns None so
it never suppresses it, but an exception raised by cleanup itself would
replace it. -/
def connExit (c : DbCtx) (should_cleanup : Bool) (exc : Option PyExc) :
    DbCtx × List ConnEv × Option PyExc :=
  if should_cleanup then
    match c.cleanup with
    | .ok p => (p.1, p.2, exc)
    | .error e2 => (c, [], some e2)
  else (c, [], exc)

/-- `_TransactionCtx.__enter__` (db.py 174-183): init the context if needed
(recording `_should_close_conn`), then `_transactions += 1`.  If
`_transactions` is None (post-cleanup state) the increment is
`None + 1`, a TypeError raised by `__enter__` itself. -/
def transEnter (c : DbCtx) : DbCtx × Bool × Option PyExc :=
  let p := if c.is_init then (c, false) else (c.init, true)
  match p.1.transactions with
  | none => (p.1, p.2, some PyExc.typeError)
  | some t => ({ p.1 with transactions := some (t + 1) }, p.2, none)

/-- `_TransactionCtx.commit` (db.py 198-208): try the raw commit; on any
exception, call the raw rollback and re-raise.  If the rollback itself
raises, that exception propagates instead (the bare `raise` is never
reached). -/
def transCommit (cOk rOk : Bool) (c : DbCtx) : List ConnEv × Option PyExc :=
  match c.conn with
  | none => ([], some PyExc.attributeError)
  | some lc =>
    let r := lc.commit cOk
    match r.2 with
    | none => (r.1, none)
    | some e =>
      let r2 := lc.rollback rOk
      match r2.2 with
      | none => (r.1 ++ r2.1, some e)
      | some e2 => (r.1 ++ r2.1, some e2)

/-- `_TransactionCtx.rollback` (db.py 210-214): the raw rollback, uncaught:
a failure propagates. -/
def transRollback (rOk : Bool) (c : DbCtx) : List ConnEv × Option PyExc :=
  match c.conn with
  | none => ([], some PyExc.attributeError)
  | some lc => lc.rollback rOk

/-- `_TransactionCtx.__exit__` (db.py 185-196): decrement `_transactions`
(TypeError on None, before the try block, so no cleanup happens then);
if the new count is 0, commit when the work succeeded else rollback; in
the finally block, cleanup if this scope initialized the context.  The
result is the new context, the connection events issued, and the
exception that propagates out of the with statement (`none` = normal). -/
def transExit (cOk rOk : Bool) (c : DbCtx) (should_close : Bool)
    (excIn : Option PyExc) : DbCtx × List ConnEv × Option PyExc :=
  match c.transactions with
  | none => (c, [], some PyExc.typeError)
  | some t =>
    let c1 : DbCtx := { c with transactions := some (t - 1) }
    let r : List ConnEv × Option PyExc :=
      if t - 1 = 0 then
        match excIn with
        | none => transCommit cOk rOk c1
        | some _ => transRollback rOk c1
      else ([], none)
    if should_close then
      match c1.cleanup with
      | .ok p =>
        (p.1, r.1 ++ p.2, match r.2 with | some e => some e | none => excIn)
      | .error e2 => (c1, r.1, some e2)
    else (c1, r.1, match r.2 with | some e => some e | none => excIn)

/-- A unit of work run inside scopes: do nothing, raise a user exception,
run a write statement (`update(...)`, i.e. `_update` through its
with_connection decorator), enter a nested `_TransactionCtx`, or sequence
two works. -/
inductive Work where
  | ret : Work
  | raiseW : Nat → Work
  | upd : Work
  | scope : Work → Work
  | seqW : Work → Work → Work
  deriving DecidableEq, Repr

/-- Whole-module state for a run: the global engine, the thread-local
`_db_ctx`, and the accumulated trace of calls that reached the underlying
raw connection. -/
structure St where
  engine : Engine
  db : DbCtx
  events : List ConnEv
  deriving DecidableEq, Repr

/-- Body of `_update` (db.py 270-286): get a cursor from
`_db_ctx._connection` (AttributeError on None), execute the statement,
and if `_db_ctx._transactions == 0` auto-commit via the lazy connection.
`None == 0` is false in Python, so no auto-commit when `_transactions`
is None. -/
def updBody (cOk : Bool) (st : St) : St × Option PyExc :=
  match st.db.conn with
  | none => (st, some PyExc.attributeError)
  | some lc =>
    let q := LasyConnection.cursor st.engine lc
    let db' : DbCtx := { st.db with conn := some q.1.2 }
    if db'.transactions = some 0 then
      let r := LasyConnection.commit cOk q.1.2
      ({ engine := q.1.1, db := db',
         events := st.events ++ [ConnEv.exec] ++ r.1 }, r.2)
    else
      ({ engine := q.1.1, db := db',
         events := st.events ++ [ConnEv.exec] }, none)

/-- `_update` as called through its `@with_connection` decorator (db.py
159-163, 270-286): a `_ConnectionCtx` around the body. -/
def runUpd (cOk : Bool) (st : St) : St × Option PyExc :=
  let p := connEnter st.db
  let r := updBody cOk { st with db := p.1 }
  let q := connExit r.1.db p.2 r.2
  ({ r.1 with db := q.1, events := r.1.events ++ q.2.1 }, q.2.2)

/-- Execute a work tree.  `scope w` is `with _TransactionCtx(): w`
(db.py 166-220): if `__enter__` raises, the body and `__exit__` do not
run; otherwise the body runs and `__exit__` decides commit/rollback/
cleanup.  A raised exception aborts a sequence. -/
def runWork (cOk rOk : Bool) : Work → St → St × Option PyExc
  | .ret, st => (st, none)
  | .raiseW n, st => (st, some (PyExc.user n))
  | .upd, st => runUpd cOk st
  | .seqW a b, st =>
    let r := runWork cOk rOk a st
    match r.2 with
    | none => runWork cOk rOk b r.1
    | some e => (r.1, some e)
  | .scope w, st =>
    let p := transEnter st.db
    match p.2.2 with
    | some e => ({ st with db := p.1 }, some e)
    | none =>
      let r := runWork cOk rOk w { st with db := p.1 }
      let q := transExit cOk rOk r.1.db p.2.1 r.2
      ({ r.1 with db := q.1, events := r.1.events ++ q.2.1 }, q.2.2)

/-- A fresh module state: engine `e`, a freshly constructed thread-local
context, empty trace. -/
def freshSt (e : Engine) : St := { engine := e, db := DbCtx.new, events := [] }

/-- The state just inside an outermost `_TransactionCtx` entered on a fresh
context: the scope initialized the context (recording
`_should_close_conn = True`) and incremented `_transactions` to 1. -/
def enteredSt (e : Engine) : St :=
  { engine := e, db := ⟨some ⟨none⟩, some 1⟩, events := [] }

/-- True iff the context holds a lazy connection whose raw handle has been
opened. -/
def rawOpen (c : DbCtx) : Bool :=
  match c.conn with
  | some lc => lc.raw.isSome
  | none => false

/-- Is an event a commit or rollback call? -/
def isCR : ConnEv → Bool
  | ConnEv.commit => true
  | ConnEv.rollback => true
  | _ => false

/-- Is an event a commit call? -/
def isCommit : ConnEv → Bool
  | ConnEv.commit => true
  | _ => false

/-- Is an event a rollback call? -/
def isRollback : ConnEv → Bool
  | ConnEv.rollback => true
  | _ => false

/-- Number of commit-or-rollback calls in a trace. -/
def crCount (l : List ConnEv) : Nat := (l.filter isCR).length

/-- Number of commit calls in a trace. -/
def commitCount (l : List ConnEv) : Nat := (l.filter isCommit).length

/-- Number of rollback calls in a trace. -/
def rollbackCount (l : List ConnEv) : Nat := (l.filter isRollback).length

/-- Iterate `cursor()` on a lazy connection `n` times, returning the final
engine/connection and the list of raw handles the cursors were created
on. -/
def cursorIter : Nat → Engine × LasyConnection → (Engine × LasyConnection) × List Nat
  | 0, p => (p, [])
  | n + 1, p =>
    let q := LasyConnection.cursor p.1 p.2
    let r := cursorIter n q.1
    (r.1, q.2 :: r.2)

/-- `_select` with `first=True` (db.py 232-249) at the level of the fetched
row: `fetchone()` yields `none` when there is no row; `if not values:
return None` also maps an empty (zero-column) row to None. -/
def selectFirstRow (fetched : Option (List (String × Nat))) :
    Option (List (String × Nat)) :=
  match fetched with
  | none => none
  | some r => if r.isEmpty then none else some r

/-- `select_int` (db.py 259-264) on the fetched first row: `len(d) != 1`
raises MultiColumnsError, otherwise return `d.values()[0]`.  When
`_select` returned None, `len(None)` is a TypeError. -/
def select_int (fetched : Option (List (String × Nat))) : Except PyExc Nat :=
  match selectFirstRow fetched with
  | none => .error PyExc.typeError
  | some [] => .error PyExc.multiColumns
  | some [(_, v)] => .ok v
  | some (_ :: _ :: _) => .error PyExc.multiColumns

/-- `insert` as called through its `@with_connection` decorator (db.py
288-294).  The body unpacks `zip(*kw.iteritems())` (a ValueError on an
empty kw) and then builds the statement text with a list comprehension
over the undefined name `clos` — a NameError — before `_update` is ever
called, so the body raises without touching the connection. -/
def runInsert (st : St) (_table : String) (kw : List (String × Nat)) :
    St × Option PyExc :=
  let p := connEnter st.db
  let exc : Option PyExc :=
    if kw.isEmpty then some PyExc.valueError else some PyExc.nameError
  let q := connExit p.1 p.2 exc
  ({ st with db := q.1, events := st.events ++ q.2.1 }, q.2.2)

/- ------------------------------------------------------------------ -/
/- Helper lemmas                                                      -/
/- ------------------------------------------------------------------ -/

/-- Once the raw handle is open, further cursor() calls change nothing and
return the same handle. -/
theorem cursorIter_open (n : Nat) (e : Engine) (h : Nat) :
    cursorIter n (e, ⟨some h⟩) = ((e, ⟨some h⟩), List.replicate n h) := by
  induction n with
  | zero => simp [cursorIter]
  | succ m ih =>
    simp [cursorIter, LasyConnection.cursor, ih, List.replicate_succ]

/-- A trace consisting only of statement executions contains no commit,
rollback, or commit-or-rollback calls. -/
theorem execOnly_counts (l : List ConnEv) (h : ∀ x ∈ l, x = ConnEv.exec) :
    crCount l = 0 ∧ commitCount l = 0 ∧ rollbackCount l = 0 := by
  induction l with
  | nil => simp [crCount, commitCount, rollbackCount]
  | cons a t ih =>
    have ha : a = ConnEv.exec := h a (List.mem_cons_self a t)
    have ht : ∀ x ∈ t, x = ConnEv.exec := fun x hx => h x (List.mem_cons_of_mem a hx)
    obtain ⟨h1, h2, h3⟩ := ih ht
    subst ha
    simp [crCount, commitCount, rollbackCount, isCR, isCommit, isRollback,
      List.filter] at h1 h2 h3 ⊢
    exact ⟨h1, h2, h3⟩

/- ------------------------------------------------------------------ -/
/- Claim theorems: C4, C6, C8, C9, C10, C5, C7                        -/
/- ------------------------------------------------------------------ -/

/-- C4: refuted on the code (code bug).  `_DbCtx.cleanup` on an initialized
context (here: lazy connection with open raw handle 7, depth 0) closes
the raw handle and sets `_transactions = None`, but leaves
`_connection` set, so immediately after cleanup `is_init()` is still
True while the transaction depth is undefined — the claimed invariant
(depth defined and nonnegative iff a connection is present) is broken
instead of re-established. -/
theorem cleanup_leaves_context_marked_initialized :
    DbCtx.cleanup ⟨some ⟨some 7⟩, some 0⟩ = .ok (cleanedDb, [ConnEv.close])
    ∧ DbCtx.is_init cleanedDb = true
    ∧ cleanedDb.transactions = none := ⟨rfl, rfl, rfl⟩

/-- C6: a lazy connection's raw handle is created at most once: iterating
cursor() `n` times from an unopened lazy connection invokes the engine
factory exactly once when `n ≥ 1` (never for `n = 0`), and every cursor
is created on that same first handle. -/
theorem lasy_connection_single_connect (n : Nat) (e : Engine) :
    (cursorIter n (e, ⟨none⟩)).1.1.calls = e.calls + (if n = 0 then 0 else 1)
    ∧ (cursorIter n (e, ⟨none⟩)).2 = List.replicate n e.next := by
  cases n with
  | zero => simp [cursorIter]
  | succ m =>
    simp [cursorIter, LasyConnection.cursor, Engine.connect, cursorIter_open,
      List.replicate_succ]

/-- C8 (amended): `_DbCtx.init` performs no initialization check and cannot
fail: on every context — initialized or not — it unconditionally
installs a fresh unopened lazy connection and sets the transaction
depth to 0.  (Callers guard it with `is_init()`.) -/
theorem ctx_init_unconditional (c : DbCtx) :
    DbCtx.init c = ⟨some ⟨none⟩, some 0⟩ := rfl

/-- C8 counterexample: on an already-initialized context (open raw handle 5,
depth 3) `init()` does not raise an AlreadyInitializedError — the method
body has no check and no raise — it just overwrites both fields. -/
theorem ctx_init_no_error_when_initialized :
    DbCtx.is_init ⟨some ⟨some 5⟩, some 3⟩ = true
    ∧ DbCtx.init ⟨some ⟨some 5⟩, some 3⟩ = ⟨some ⟨none⟩, some 0⟩ := ⟨rfl, rfl⟩

/-- C9 (amended): `select_int` returns the single value when the fetched row
has exactly one column, and raises MultiColumnsError when the row is
non-empty with two or more columns; but in the zero-column/empty case
`_select` returns None and `select_int` fails with `len(None)` — a
TypeError, not MultiColumnsError. -/
theorem select_int_column_semantics (k : String) (v : Nat)
    (d : List (String × Nat)) (hd : 2 ≤ d.length) :
    select_int (some [(k, v)]) = .ok v
    ∧ select_int (some d) = .error PyExc.multiColumns
    ∧ select_int none = .error PyExc.typeError
    ∧ select_int (some []) = .error PyExc.typeError := by
  refine ⟨rfl, ?_, rfl, rfl⟩
  rcases d with _ | ⟨a, _ | ⟨b, r⟩⟩
  · simp at hd
  · simp at hd
  · rfl

/-- C9 witness: the theorem applied at a one-column row and a two-column
row. -/
theorem select_int_column_semantics_witness :
    select_int (some [("a", 5)]) = .ok 5
    ∧ select_int (some [("a", 1), ("b", 2)]) = .error PyExc.multiColumns
    ∧ select_int none = .error PyExc.typeError
    ∧ select_int (some []) = .error PyExc.typeError :=
  select_int_column_semantics "a" 5 [("a", 1), ("b", 2)] (by decide)

/-- C9 counterexample: on an empty result (`fetchone()` returned nothing)
`select_int` fails with a TypeError, which is a different error from
the MultiColumnsError the claim requires for the zero-column/empty
case. -/
theorem select_int_empty_gives_type_error :
    select_int none = .error PyExc.typeError
    ∧ PyExc.typeError ≠ PyExc.multiColumns := ⟨rfl, by decide⟩

/-- C10: for every table name and non-empty keyword list, `insert` raises a
NameError while building the statement (the list comprehension iterates
the undefined name `clos`), before `_update` is reached: the call errors
out and the event trace is unchanged — no statement, commit, or rollback
ever reaches the underlying connection. -/
theorem insert_name_error_no_sql (st : St) (table : String)
    (kw : List (String × Nat)) (h : kw ≠ []) :
    (runInsert st table kw).2 = some PyExc.nameError
    ∧ (runInsert st table kw).1.events = st.events := by
  have hk : kw.isEmpty = false := by
    cases kw with
    | nil => exact absurd rfl h
    | cons a t => rfl
  unfold runInsert connEnter connExit
  cases hinit : st.db.is_init with
  | true => simp [hinit, hk]
  | false => simp [hinit, hk, DbCtx.cleanup, DbCtx.init, LasyConnection.cleanup]

/-- C10 witness: insert into table "t1" with one column on a fresh state. -/
theorem insert_name_error_no_sql_witness :
    (runInsert (freshSt ⟨0, 0⟩) "t1" [("c", 1)]).2 = some PyExc.nameError
    ∧ (runInsert (freshSt ⟨0, 0⟩) "t1" [("c", 1)]).1.events
        = (freshSt ⟨0, 0⟩).events :=
  insert_name_error_no_sql (freshSt ⟨0, 0⟩) "t1" [("c", 1)] (by decide)

/-- C5: a connection scope entered while the context is already initialized
records `_should_cleanup = False`, and its exit leaves the context
untouched, issues no connection calls, and passes the work's outcome
through; a scope entered on an uninitialized context performs `init()`
and records True, and its exit runs the context cleanup (closing the
lazy connection, clearing the depth) on every exit path — for every
outcome `exc` of the enclosed work, success or failure. -/
theorem connection_scope_owner_teardown (c db2 : DbCtx) (lc : LasyConnection)
    (exc : Option PyExc) :
    (c.is_init = true →
       connEnter c = (c, false) ∧ connExit db2 false exc = (db2, [], exc))
    ∧ (c.is_init = false →
       connEnter c = (DbCtx.init c, true)
       ∧ (db2.conn = some lc →
            connExit db2 true exc
              = (⟨some (lc.cleanup).1, none⟩, (lc.cleanup).2, exc))) := by
  constructor
  · intro h
    exact ⟨by simp [connEnter, h], by simp [connExit]⟩
  · intro h
    refine ⟨by simp [connEnter, h], fun hlc => ?_⟩
    simp [connExit, DbCtx.cleanup, hlc]

/-- C5 witness: the theorem applied to an already-initialized context (joined
scope: nothing happens on exit) and to a fresh context (owner scope:
cleanup runs on a failing exit path). -/
theorem connection_scope_owner_teardown_witness :
    (connEnter ⟨some ⟨some 2⟩, some 0⟩ = (⟨some ⟨some 2⟩, some 0⟩, false)
       ∧ connExit ⟨some ⟨some 3⟩, some 0⟩ false (some (PyExc.user 1))
           = (⟨some ⟨some 3⟩, some 0⟩, [], some (PyExc.user 1)))
    ∧ (connEnter DbCtx.new = (DbCtx.init DbCtx.new, true)
       ∧ connExit ⟨some ⟨some 3⟩, some 0⟩ true (some (PyExc.user 1))
           = (⟨some (LasyConnection.cleanup ⟨some 3⟩).1, none⟩,
              (LasyConnection.cleanup ⟨some 3⟩).2, some (PyExc.user 1))) :=
  ⟨(connection_scope_owner_teardown ⟨some ⟨some 2⟩, some 0⟩ ⟨some ⟨some 3⟩, some 0⟩
      ⟨some 3⟩ (some (PyExc.user 1))).1 rfl,
   ((connection_scope_owner_teardown DbCtx.new ⟨some ⟨some 3⟩, some 0⟩
      ⟨some 3⟩ (some (PyExc.user 1))).2 rfl).1,
   ((connection_scope_owner_teardown DbCtx.new ⟨some ⟨some 3⟩, some 0⟩
      ⟨some 3⟩ (some (PyExc.user 1))).2 rfl).2 rfl⟩

/-- C7: the body of `_update` executes the statement and then issues a
commit on the underlying connection if and only if the context's
transaction depth is 0 at that moment (`_db_ctx._transactions == 0`);
in particular inside an active transaction scope (depth > 0, or depth
None) the write itself issues no commit. -/
theorem update_autocommit_iff_depth_zero (cOk : Bool) (st : St)
    (lc : LasyConnection) (h : st.db.conn = some lc) :
    (updBody cOk st).1.events
      = st.events ++ [ConnEv.exec]
        ++ (if st.db.transactions = some 0 then [ConnEv.commit] else []) := by
  unfold updBody
  rw [h]
  cases hraw : lc.raw with
  | none =>
    by_cases ht : st.db.transactions = some 0 <;>
      simp [LasyConnection.cursor, Engine.connect, LasyConnection.commit, hraw, ht]
  | some h0 =>
    by_cases ht : st.db.transactions = some 0 <;>
      simp [LasyConnection.cursor, LasyConnection.commit, hraw, ht]

/-- C7 witness: at depth 0 the write auto-commits right after execution. -/
theorem update_autocommit_iff_depth_zero_witness :
    (updBody true (⟨⟨0, 0⟩, ⟨some ⟨none⟩, some 0⟩, []⟩ : St)).1.events
      = [] ++ [ConnEv.exec]
        ++ (if (⟨some ⟨none⟩, some 0⟩ : DbCtx).transactions = some 0
            then [ConnEv.commit] else []) :=
  update_autocommit_iff_depth_zero true ⟨⟨0, 0⟩, ⟨some ⟨none⟩, some 0⟩, []⟩ ⟨none⟩ rfl

/-- Trace counts distribute over trace concatenation. -/
theorem crCount_append (a b : List ConnEv) :
    crCount (a ++ b) = crCount a + crCount b := by
  simp [crCount, List.filter_append]

/-- Commit counts distribute over trace concatenation. -/
theorem commitCount_append (a b : List ConnEv) :
    commitCount (a ++ b) = commitCount a + commitCount b := by
  simp [commitCount, List.filter_append]

/-- Rollback counts distribute over trace concatenation. -/
theorem rollbackCount_append (a b : List ConnEv) :
    rollbackCount (a ++ b) = rollbackCount a + rollbackCount b := by
  simp [rollbackCount, List.filter_append]

/-- Running a transaction scope on a fresh context is: enter (init the
context, depth 0 to 1, owner flag set), run the enclosed work from
`enteredSt`, then `__exit__` with the owner flag. -/
theorem runScope_eq (cOk rOk : Bool) (w : Work) (e : Engine) :
    runWork cOk rOk (.scope w) (freshSt e)
      = ({ (runWork cOk rOk w (enteredSt e)).1 with
           db := (transExit cOk rOk (runWork cOk rOk w (enteredSt e)).1.db true
                    (runWork cOk rOk w (enteredSt e)).2).1,
           events := (runWork cOk rOk w (enteredSt e)).1.events ++
                     (transExit cOk rOk (runWork cOk rOk w (enteredSt e)).1.db true
                        (runWork cOk rOk w (enteredSt e)).2).2.1 },
         (transExit cOk rOk (runWork cOk rOk w (enteredSt e)).1.db true
            (runWork cOk rOk w (enteredSt e)).2).2.2) := rfl

/-- Frame lemma: while the context is initialized and the transaction depth
is at least 1, running any work tree keeps the context initialized,
restores the depth, and appends only statement executions to the trace —
no commit, rollback, close, or cleanup ever happens at depth ≥ 1
(inner scope exits leave the depth > 0 and the `_ConnectionCtx` inside
`_update` never owns the context). -/
theorem runWork_frame (cOk rOk : Bool) (w : Work) :
    ∀ (st : St) (t : Int), 1 ≤ t → st.db.conn.isSome = true →
      st.db.transactions = some t →
      (runWork cOk rOk w st).1.db.conn.isSome = true
      ∧ (runWork cOk rOk w st).1.db.transactions = some t
      ∧ ∃ l, (runWork cOk rOk w st).1.events = st.events ++ l
          ∧ ∀ x ∈ l, x = ConnEv.exec := by
  induction w with
  | ret =>
    intro st t ht hc htr
    exact ⟨hc, htr, [], by simp [runWork], by simp⟩
  | raiseW n =>
    intro st t ht hc htr
    exact ⟨hc, htr, [], by simp [runWork], by simp⟩
  | upd =>
    intro st t ht hc htr
    obtain ⟨lc, hlc⟩ := Option.isSome_iff_exists.mp hc
    have hne : ¬ t = 0 := by omega
    cases hraw : lc.raw with
    | none =>
      refine ⟨?_, ?_, [ConnEv.exec], ?_, ?_⟩ <;>
        simp [runWork, runUpd, connEnter, connExit, updBody, DbCtx.is_init, hc,
          hlc, hraw, hne, htr, LasyConnection.cursor, Engine.connect]
    | some h0 =>
      refine ⟨?_, ?_, [ConnEv.exec], ?_, ?_⟩ <;>
        simp [runWork, runUpd, connEnter, connExit, updBody, DbCtx.is_init, hc,
          hlc, hraw, hne, htr, LasyConnection.cursor]
  | seqW a b iha ihb =>
    intro st t ht hc htr
    obtain ⟨hc1, ht1, l1, he1, hx1⟩ := iha st t ht hc htr
    rcases hr : runWork cOk rOk a st with ⟨st1, exc1⟩
    rw [hr] at hc1 ht1 he1
    dsimp only at hc1 ht1 he1
    cases exc1 with
    | none =>
      obtain ⟨hc2, ht2, l2, he2, hx2⟩ := ihb st1 t ht hc1 ht1
      refine ⟨?_, ?_, l1 ++ l2, ?_, ?_⟩
      · simpa [runWork, hr] using hc2
      · simpa [runWork, hr] using ht2
      · simp only [runWork, hr]
        rw [he2, he1, List.append_assoc]
      · intro x hx
        rcases List.mem_append.mp hx with h | h
        · exact hx1 x h
        · exact hx2 x h
    | some e1 =>
      refine ⟨?_, ?_, l1, ?_, hx1⟩ <;> simp [runWork, hr, hc1, ht1, he1]
  | scope w ih =>
    intro st t ht hc htr
    have henter : transEnter st.db
        = ({ st.db with transactions := some (t + 1) }, false, none) := by
      simp [transEnter, DbCtx.is_init, hc, htr]
    obtain ⟨hc1, ht1, l, he, hx⟩ :=
      ih { st with db := { st.db with transactions := some (t + 1) } } (t + 1)
        (by omega) (by simpa using hc) (by simp)
    rcases hr : runWork cOk rOk w
        { st with db := { st.db with transactions := some (t + 1) } } with ⟨st2, excB⟩
    rw [hr] at hc1 ht1 he
    dsimp only at hc1 ht1 he
    have h1 : (t + 1 - 1 : Int) = t := by omega
    have hne0 : ¬ (t = 0) := by omega
    have hexit : transExit cOk rOk st2.db false excB
        = ({ st2.db with transactions := some t }, [],
           match (none : Option PyExc) with | some e => some e | none => excB) := by
      simp [transExit, ht1, h1, hne0]
    refine ⟨?_, ?_, l, ?_, hx⟩ <;>
      simp_all [runWork, henter, hr, hexit]

/-- `_TransactionCtx.__exit__` at the outermost boundary (depth 1, owner
flag set, raw handle open): the decrement reaches 0, so success commits
(with the rollback-and-reraise fallback when the raw commit fails) and
failure rolls back; the finally block then cleans the context up,
closing the raw handle. -/
theorem transExit_depth_one (cOk rOk : Bool) (db : DbCtx) (lc : LasyConnection)
    (h0 : Nat) (excIn : Option PyExc)
    (hcn : db.conn = some lc) (hrw : lc.raw = some h0)
    (htr : db.transactions = some 1) :
    transExit cOk rOk db true excIn
      = (cleanedDb,
         (match excIn with
          | none => if cOk then [ConnEv.commit] else [ConnEv.commit, ConnEv.rollback]
          | some _ => [ConnEv.rollback]) ++ [ConnEv.close],
         match excIn with
         | none =>
             if cOk then none
             else if rOk then some PyExc.commitFail else some PyExc.rollbackFail
         | some e0 => if rOk then some e0 else some PyExc.rollbackFail) := by
  cases excIn <;> cases cOk <;> cases rOk <;>
    simp [transExit, transCommit, transRollback, LasyConnection.commit,
      LasyConnection.rollback, DbCtx.cleanup, LasyConnection.cleanup, cleanedDb,
      hcn, hrw, htr]

/-- C1: for every work tree (hence every nesting depth of transaction
scopes) run under an outermost `_TransactionCtx` on a fresh context,
provided the enclosed work opened the underlying connection and the
driver's commit succeeds, the whole inner run — every inner scope exit
(which leaves the depth > 0) and every write inside — issues zero
commit-or-rollback calls, and the complete run issues exactly one
commit-or-rollback call, at the outermost exit that takes the depth
from 1 to 0. -/
theorem transaction_nesting_single_commit_or_rollback (rOk : Bool) (e : Engine)
    (w : Work)
    (hopen : rawOpen (runWork true rOk w (enteredSt e)).1.db = true) :
    crCount (runWork true rOk w (enteredSt e)).1.events = 0
    ∧ crCount (runWork true rOk (Work.scope w) (freshSt e)).1.events = 1 := by
  obtain ⟨hc2, ht2, l, he, hx⟩ :=
    runWork_frame true rOk w (enteredSt e) 1 (by omega) rfl rfl
  have hfull := runScope_eq true rOk w e
  rcases hr : runWork true rOk w (enteredSt e) with ⟨st2, excB⟩
  rw [hr] at hc2 ht2 he hopen hfull
  dsimp only at hc2 ht2 he hopen hfull
  have hl : st2.events = l := by simpa [enteredSt] using he
  have hinner : crCount st2.events = 0 := by
    rw [hl]; exact (execOnly_counts l hx).1
  rcases hcn : st2.db.conn with _ | lc
  · rw [hcn] at hc2; simp at hc2
  · simp only [rawOpen, hcn] at hopen
    obtain ⟨h0, hrw⟩ := Option.isSome_iff_exists.mp hopen
    have hexit := transExit_depth_one true rOk st2.db lc h0 excB hcn hrw ht2
    constructor
    · exact hinner
    · rw [hfull, hexit]
      cases excB
      · dsimp only
        rw [crCount_append, hinner]
        simp [crCount, isCR]
      · dsimp only
        rw [crCount_append, hinner]
        simp [crCount, isCR]

/-- C1 witness: one write under a single transaction scope on a fresh
context: the inner run has no commit/rollback, the full run exactly
one. -/
theorem transaction_nesting_single_commit_or_rollback_witness :
    rawOpen (runWork true true Work.upd (enteredSt ⟨0, 0⟩)).1.db = true
    ∧ (crCount (runWork true true Work.upd (enteredSt ⟨0, 0⟩)).1.events = 0
       ∧ crCount (runWork true true (Work.scope Work.upd)
           (freshSt ⟨0, 0⟩)).1.events = 1) :=
  ⟨by decide,
   transaction_nesting_single_commit_or_rollback true ⟨0, 0⟩ Work.upd (by decide)⟩

/-- C2 counterexample: the enclosed work (one write, then a failure with
identity 7) raises under an outermost transaction scope, and the raw
rollback issued at exit itself fails: the exception that reaches the
caller is the rollback failure, not the original failure — the original
failure does not propagate unchanged, contradicting the claim. -/
theorem rollback_failure_masks_work_failure :
    (runWork true false (Work.scope (Work.seqW Work.upd (Work.raiseW 7)))
        (freshSt ⟨0, 0⟩)).2 = some PyExc.rollbackFail
    ∧ PyExc.rollbackFail ≠ PyExc.user 7 := ⟨by decide, by decide⟩

/-- C2 (amended): if the enclosed work of an outermost transaction scope
raises a failure and had opened the underlying connection, the exit
issues a rollback call and never a commit call, and — provided the raw
rollback call succeeds — the original failure propagates unchanged to
the caller.  (If the raw rollback itself fails, that failure propagates
instead, as the counterexample shows.) -/
theorem outermost_failure_rollback_and_propagation (cOk : Bool) (e : Engine)
    (w : Work) (n : Nat)
    (hexc : (runWork cOk true w (enteredSt e)).2 = some (PyExc.user n))
    (hopen : rawOpen (runWork cOk true w (enteredSt e)).1.db = true) :
    (runWork cOk true (Work.scope w) (freshSt e)).2 = some (PyExc.user n)
    ∧ commitCount (runWork cOk true (Work.scope w) (freshSt e)).1.events = 0
    ∧ rollbackCount (runWork cOk true (Work.scope w) (freshSt e)).1.events = 1 := by
  obtain ⟨hc2, ht2, l, he, hx⟩ :=
    runWork_frame cOk true w (enteredSt e) 1 (by omega) rfl rfl
  have hfull := runScope_eq cOk true w e
  rcases hr : runWork cOk true w (enteredSt e) with ⟨st2, excB⟩
  rw [hr] at hc2 ht2 he hopen hfull hexc
  dsimp only at hc2 ht2 he hopen hfull hexc
  subst hexc
  have hl : st2.events = l := by simpa [enteredSt] using he
  have hCom : commitCount st2.events = 0 := by
    rw [hl]; exact (execOnly_counts l hx).2.1
  have hRol : rollbackCount st2.events = 0 := by
    rw [hl]; exact (execOnly_counts l hx).2.2
  rcases hcn : st2.db.conn with _ | lc
  · rw [hcn] at hc2; simp at hc2
  · simp only [rawOpen, hcn] at hopen
    obtain ⟨h0, hrw⟩ := Option.isSome_iff_exists.mp hopen
    have hexit :=
      transExit_depth_one cOk true st2.db lc h0 (some (PyExc.user n)) hcn hrw ht2
    refine ⟨?_, ?_, ?_⟩
    · rw [hfull, hexit]
      simp
    · rw [hfull, hexit]
      dsimp only
      rw [commitCount_append, hCom]
      simp [commitCount, isCommit]
    · rw [hfull, hexit]
      dsimp only
      rw [rollbackCount_append, hRol]
      simp [rollbackCount, isRollback]

/-- C2 witness: a write followed by a failure with identity 7, with a
succeeding raw rollback: the original failure propagates, zero commit
calls, one rollback call. -/
theorem outermost_failure_rollback_and_propagation_witness :
    (runWork true true (Work.seqW Work.upd (Work.raiseW 7))
        (enteredSt ⟨0, 0⟩)).2 = some (PyExc.user 7)
    ∧ rawOpen (runWork true true (Work.seqW Work.upd (Work.raiseW 7))
        (enteredSt ⟨0, 0⟩)).1.db = true
    ∧ ((runWork true true (Work.scope (Work.seqW Work.upd (Work.raiseW 7)))
          (freshSt ⟨0, 0⟩)).2 = some (PyExc.user 7)
       ∧ commitCount (runWork true true (Work.scope (Work.seqW Work.upd (Work.raiseW 7)))
           (freshSt ⟨0, 0⟩)).1.events = 0
       ∧ rollbackCount (runWork true true (Work.scope (Work.seqW Work.upd (Work.raiseW 7)))
           (freshSt ⟨0, 0⟩)).1.events = 1) :=
  ⟨by decide, by decide,
   outermost_failure_rollback_and_propagation true ⟨0, 0⟩
     (Work.seqW Work.upd (Work.raiseW 7)) 7 (by decide) (by decide)⟩

/-- C3 counterexample: after successful work (one write), the raw commit
fails and the raw rollback issued by the except-handler also fails: the
error surfaced to the caller is the rollback failure — a
rollback-outcome error replaces the commit failure, contradicting the
claim (the bare re-raise in `_TransactionCtx.commit` is never
reached). -/
theorem rollback_failure_masks_commit_failure :
    (runWork false false (Work.scope Work.upd) (freshSt ⟨0, 0⟩)).2
      = some PyExc.rollbackFail
    ∧ PyExc.rollbackFail ≠ PyExc.commitFail := ⟨by decide, by decide⟩

/-- C3 (amended): if at the outermost exit after successful work (which
opened the connection) the raw commit fails, the underlying connection
subsequently receives a rollback call — the trace ends with commit,
rollback, close in that order — and, provided the raw rollback
succeeds, the error surfaced to the caller is the commit failure.  (If
the rollback also fails, the rollback failure surfaces instead, as the
counterexample shows.) -/
theorem commit_failure_rollback_then_reraise (e : Engine) (w : Work)
    (hexc : (runWork false true w (enteredSt e)).2 = none)
    (hopen : rawOpen (runWork false true w (enteredSt e)).1.db = true) :
    (runWork false true (Work.scope w) (freshSt e)).2 = some PyExc.commitFail
    ∧ (runWork false true (Work.scope w) (freshSt e)).1.events
        = (runWork false true w (enteredSt e)).1.events
          ++ [ConnEv.commit, ConnEv.rollback, ConnEv.close] := by
  obtain ⟨hc2, ht2, l, he, hx⟩ :=
    runWork_frame false true w (enteredSt e) 1 (by omega) rfl rfl
  have hfull := runScope_eq false true w e
  rcases hr : runWork false true w (enteredSt e) with ⟨st2, excB⟩
  rw [hr] at hc2 ht2 hopen hfull hexc
  dsimp only at hc2 ht2 hopen hfull hexc
  subst hexc
  rcases hcn : st2.db.conn with _ | lc
  · rw [hcn] at hc2; simp at hc2
  · simp only [rawOpen, hcn] at hopen
    obtain ⟨h0, hrw⟩ := Option.isSome_iff_exists.mp hopen
    have hexit := transExit_depth_one false true st2.db lc h0 none hcn hrw ht2
    constructor
    · rw [hfull, hexit]
      simp
    · rw [hfull, hexit]
      dsimp only
      simp

/-- C3 witness: one write, failing raw commit, succeeding raw rollback: the
commit failure surfaces and the trace ends commit, rollback, close. -/
theorem commit_failure_rollback_then_reraise_witness :
    (runWork false true Work.upd (enteredSt ⟨0, 0⟩)).2 = none
    ∧ rawOpen (runWork false true Work.upd (enteredSt ⟨0, 0⟩)).1.db = true
    ∧ ((runWork false true (Work.scope Work.upd) (freshSt ⟨0, 0⟩)).2
          = some PyExc.commitFail
       ∧ (runWork false true (Work.scope Work.upd) (freshSt ⟨0, 0⟩)).1.events
          = (runWork false true Work.upd (enteredSt ⟨0, 0⟩)).1.events
            ++ [ConnEv.commit, ConnEv.rollback, ConnEv.close]) :=
  ⟨by decide, by decide,
   commit_failure_rollback_then_reraise ⟨0, 0⟩ Work.upd (by decide) (by decide)⟩
